import Mathlib

/-!
Verification of the pooling kernel-construction layer
(src/ngraph/transformers/cpu/pooling.c).

The two builders `create_mkldnn_pool_fprop_kernel` and
`create_mkldnn_pool_bprop_kernel` are translated from the C source.
The MKL-DNN library calls they make (memory-descriptor initialization,
pooling-descriptor initialization, primitive-descriptor creation, layout
queries, tensor materialization, primitive creation) are external to the
repository; they are modelled from the spec, with fallibility captured by
oracle predicates on an `Engine` record and the C `MKL_CHECK` fatal-abort
macro captured by `Except` error propagation (an error aborts the rest of
the construction and yields no kernel).
-/

namespace PoolingKernel

/-- A memory layout tag: the fixed default layout `mkldnn_chwn`, the
automatic placeholder `mkldnn_any`, or some other concrete engine format. -/
inductive Fmt : Type where
  | mkldnn_chwn : Fmt
  | mkldnn_any : Fmt
  | other : Nat → Fmt
deriving DecidableEq

/-- Memory Descriptor: rank, per-axis extents, element data type (coded as a
number, mirroring the opaque `mkldnn_data_type_t`), and a layout tag. -/
structure MemDesc where
  ndims : Nat
  dims : List Int
  data_type : Nat
  fmt : Fmt
deriving DecidableEq

/-- Propagation kind of a forward pooling descriptor (the source always uses
`mkldnn_forward_training`). -/
inductive PropKind : Type where
  | forward_training : PropKind
  | forward_inference : PropKind
deriving DecidableEq

/-- Pooling algorithm selector. -/
inductive AlgKind : Type where
  | pooling_max : AlgKind
  | pooling_avg : AlgKind
deriving DecidableEq

/-- Padding policy (the source always uses `mkldnn_padding_zero`). -/
inductive PadKind : Type where
  | padding_zero : PadKind
deriving DecidableEq

/-- Logical pooling-operator descriptor.  For a forward descriptor,
`src_desc`/`dst_desc` hold the source and destination Memory Descriptors; for
a backward descriptor they hold the diff-source and diff-destination Memory
Descriptors, in the argument order of `mkldnn_pooling_backward_desc_init`. -/
structure PoolingDesc where
  is_fwd : Bool
  prop_kind : Option PropKind
  alg : AlgKind
  src_desc : MemDesc
  dst_desc : MemDesc
  strides : List Int
  kernel : List Int
  padding_l : List Int
  padding_r : List Int
  pad_kind : PadKind
deriving DecidableEq

/-- Which MKL-DNN call failed; `Except` errors carry this step tag, mirroring
the diagnostic of the fatal `MKL_CHECK` abort. -/
inductive MklStep : Type where
  | mem_desc_init : MklStep
  | pool_desc_init : MklStep
  | prim_desc_create : MklStep
  | prim_create : MklStep
deriving DecidableEq

/-- Modelled from the spec: the Engine, an opaque device handle, together
with the library-level validity oracles that decide whether each fallible
engine call succeeds (ConfigurationError model), the engine's preferred
concrete layout used to resolve the automatic placeholder, and the data
type/layout it picks for the auxiliary index ("workspace") tensor. -/
structure Engine where
  mem_desc_ok : MemDesc → Bool
  pool_desc_ok : PoolingDesc → Bool
  prim_desc_ok : PoolingDesc → Bool
  prim_create_ok : PoolingDesc → Bool
  preferred_fmt : Fmt
  ws_data_type : Nat
  ws_fmt : Fmt

/-- The layout-bearing part of a primitive descriptor: the logical descriptor
it was created from and the engine-resolved Memory Descriptors for its
source, destination and workspace roles (for a backward descriptor the
source/destination slots hold the diff-source/diff-destination roles). -/
structure PrimDescCore where
  desc : PoolingDesc
  resolved_src : MemDesc
  resolved_dst : MemDesc
  ws_md : MemDesc
deriving DecidableEq

/-- A primitive descriptor: its core plus the core of the hint primitive
descriptor it was created with, when one was supplied. -/
structure PrimDesc where
  core : PrimDescCore
  hint : Option PrimDescCore
deriving DecidableEq

/-- Tensor Handle: rank, extents, and the Memory Descriptor it was
materialized from (the executable memory primitive handle is identified with
the tensor itself in this model). -/
structure Tensor where
  ndims : Nat
  dims : List Int
  md : MemDesc
deriving DecidableEq

/-- An executable primitive: the primitive descriptor it was bound from and
its wired source and destination tensors. -/
structure MklPrim where
  pd : PrimDesc
  srcs : List Tensor
  dsts : List Tensor
deriving DecidableEq

/-- OpKernel record: primitive descriptor, executable primitive, ordered
input/output Tensor Handles with their declared counts, per-slot optional
reorder steps, and the kernel's net of executable primitives.  The C struct
holds fixed-capacity arrays; the lists here hold exactly the slots the
builders assign. -/
structure OpKernel where
  op_desc : PrimDesc
  op_prim : MklPrim
  inputs : List Tensor
  outputs : List Tensor
  num_inputs : Nat
  num_outputs : Nat
  reorder_i : List (Option MklPrim)
  reorder_o : List (Option MklPrim)
  net : List MklPrim
deriving DecidableEq

/-- Modelled from the spec: `mkldnn_memory_desc_init` builds a Memory
Descriptor from rank, extents, data type and a layout tag; it fails (fatal
ConfigurationError) when the engine's validity oracle rejects it. -/
def mkldnn_memory_desc_init (engine : Engine) (ndims : Nat) (sizes : List Int)
    (data_type : Nat) (fmt : Fmt) : Except MklStep MemDesc :=
  let md : MemDesc := ⟨ndims, sizes, data_type, fmt⟩
  if engine.mem_desc_ok md then Except.ok md else Except.error MklStep.mem_desc_init

/-- Modelled from the spec: `mkldnn_pooling_forward_desc_init` builds the
logical forward pooling descriptor from propagation kind, algorithm, source
and destination Memory Descriptors, strides, window extents, leading and
trailing padding, and the padding policy. -/
def mkldnn_pooling_forward_desc_init (engine : Engine) (pk : PropKind)
    (alg : AlgKind) (src dst : MemDesc)
    (strides kernel padding_l padding_r : List Int) (pad : PadKind) :
    Except MklStep PoolingDesc :=
  let d : PoolingDesc :=
    ⟨true, some pk, alg, src, dst, strides, kernel, padding_l, padding_r, pad⟩
  if engine.pool_desc_ok d then Except.ok d else Except.error MklStep.pool_desc_init

/-- Modelled from the spec: `mkldnn_pooling_backward_desc_init` builds the
logical backward pooling descriptor; its first Memory Descriptor argument is
the diff-source descriptor and its second the diff-destination descriptor. -/
def mkldnn_pooling_backward_desc_init (engine : Engine) (alg : AlgKind)
    (diff_src diff_dst : MemDesc)
    (strides kernel padding_l padding_r : List Int) (pad : PadKind) :
    Except MklStep PoolingDesc :=
  let d : PoolingDesc :=
    ⟨false, none, alg, diff_src, diff_dst, strides, kernel, padding_l, padding_r, pad⟩
  if engine.pool_desc_ok d then Except.ok d else Except.error MklStep.pool_desc_init

/-- Resolve the automatic layout placeholder to the concrete format `f`;
a Memory Descriptor that already has a concrete layout is kept unchanged. -/
def resolve_any (f : Fmt) (md : MemDesc) : MemDesc :=
  if md.fmt = Fmt.mkldnn_any then { md with fmt := f } else md

/-- Modelled from the spec: `mkldnn_primitive_desc_create` binds a logical
pooling descriptor to the engine, resolving each automatic layout to a
concrete one.  When a forward primitive descriptor is supplied as hint, the
engine guarantees layout compatibility between the passes: automatic layouts
resolve to the hint's corresponding resolved layouts and the workspace
descriptor is the hint's workspace descriptor; with no hint the engine picks
its preferred format. -/
def mkldnn_primitive_desc_create (engine : Engine) (d : PoolingDesc)
    (hint : Option PrimDesc) : Except MklStep PrimDesc :=
  if engine.prim_desc_ok d then
    let src_f : Fmt := match hint with
      | some h => h.core.resolved_src.fmt
      | none => engine.preferred_fmt
    let dst_f : Fmt := match hint with
      | some h => h.core.resolved_dst.fmt
      | none => engine.preferred_fmt
    let ws : MemDesc := match hint with
      | some h => h.core.ws_md
      | none => ⟨d.dst_desc.ndims, d.dst_desc.dims, engine.ws_data_type, engine.ws_fmt⟩
    Except.ok ⟨⟨d, resolve_any src_f d.src_desc, resolve_any dst_f d.dst_desc, ws⟩,
               hint.map PrimDesc.core⟩
  else Except.error MklStep.prim_desc_create

/-- The query kinds the builders use against a primitive descriptor. -/
inductive MklQuery : Type where
  | query_src_pd : MklQuery
  | query_dst_pd : MklQuery
  | query_diff_src_pd : MklQuery
  | query_diff_dst_pd : MklQuery
  | query_workspace_pd : MklQuery
deriving DecidableEq

/-- Modelled from the spec: querying a primitive descriptor for the resolved
Memory Descriptor of one of its roles (`mkldnn_primitive_desc_query_pd`
composed with `mkldnn_primitive_desc_query_memory_d`).  On a backward
primitive descriptor the diff-source/diff-destination roles live in the
source/destination slots. -/
def mkldnn_primitive_desc_query_md (pd : PrimDesc) (q : MklQuery) : MemDesc :=
  match q with
  | MklQuery.query_src_pd => pd.core.resolved_src
  | MklQuery.query_dst_pd => pd.core.resolved_dst
  | MklQuery.query_diff_src_pd => pd.core.resolved_src
  | MklQuery.query_diff_dst_pd => pd.core.resolved_dst
  | MklQuery.query_workspace_pd => pd.core.ws_md

/-- Modelled from the spec: Tensor Materializer, explicit-descriptor variant
(`create_mkldnn_tensor_from_md`). -/
def create_mkldnn_tensor_from_md (ndims : Nat) (sizes : List Int)
    (md : MemDesc) : Tensor :=
  ⟨ndims, sizes, md⟩

/-- Modelled from the spec: Tensor Materializer, default-layout variant
(`create_mkldnn_tensor`). -/
def create_mkldnn_tensor (ndims : Nat) (sizes : List Int) (data_type : Nat)
    (fmt : Fmt) : Tensor :=
  ⟨ndims, sizes, ⟨ndims, sizes, data_type, fmt⟩⟩

/-- Modelled from the spec: `mkldnn_primitive_create` binds an executable
primitive from a primitive descriptor and the wired source/destination
tensors; it fails fatally when the engine declines. -/
def mkldnn_primitive_create (engine : Engine) (pd : PrimDesc)
    (srcs dsts : List Tensor) : Except MklStep MklPrim :=
  if engine.prim_create_ok pd.core.desc then Except.ok ⟨pd, srcs, dsts⟩
  else Except.error MklStep.prim_create

/-- Translation of `create_mkldnn_pool_fprop_kernel`
(src/ngraph/transformers/cpu/pooling.c, lines 19-102).  `MKL_CHECK` is
rendered as a match on the `Except` result: an error aborts construction.
The C function mutates a caller-allocated `opkernel` in place; here the
initial record is taken as `opkernel` and the updated record is returned,
its `net` extended by the single appended primitive. -/
def create_mkldnn_pool_fprop_kernel (engine : Engine) (src_dims dst_dims : Nat)
    (src_sizes kernel_sizes dst_sizes strides padding : List Int)
    (pool_type : Int) (input_src_md : Option MemDesc) (data_type : Nat)
    (opkernel : OpKernel) : Except MklStep OpKernel :=
  match (match input_src_md with
         | some md => Except.ok md
         | none => mkldnn_memory_desc_init engine src_dims src_sizes data_type
             Fmt.mkldnn_chwn) with
  | Except.error e => Except.error e
  | Except.ok mkldnn_memory_desc_src_md =>
  match mkldnn_memory_desc_init engine dst_dims dst_sizes data_type
      Fmt.mkldnn_any with
  | Except.error e => Except.error e
  | Except.ok mkldnn_memory_desc_dst_md =>
  match (if pool_type = 0 then
           mkldnn_pooling_forward_desc_init engine PropKind.forward_training
             AlgKind.pooling_max mkldnn_memory_desc_src_md
             mkldnn_memory_desc_dst_md strides kernel_sizes padding padding
             PadKind.padding_zero
         else
           mkldnn_pooling_forward_desc_init engine PropKind.forward_training
             AlgKind.pooling_avg mkldnn_memory_desc_src_md
             mkldnn_memory_desc_dst_md strides kernel_sizes padding padding
             PadKind.padding_zero) with
  | Except.error e => Except.error e
  | Except.ok pool_any_desc =>
  match mkldnn_primitive_desc_create engine pool_any_desc none with
  | Except.error e => Except.error e
  | Except.ok op_desc =>
  let _kernel_src_md := mkldnn_primitive_desc_query_md op_desc
    MklQuery.query_src_pd
  let input0 : Tensor := match input_src_md with
    | some md => create_mkldnn_tensor_from_md src_dims src_sizes md
    | none => create_mkldnn_tensor src_dims src_sizes data_type Fmt.mkldnn_chwn
  let dst_md := mkldnn_primitive_desc_query_md op_desc MklQuery.query_dst_pd
  let output0 : Tensor := create_mkldnn_tensor_from_md dst_dims dst_sizes dst_md
  if pool_type = 0 then
    let md := mkldnn_primitive_desc_query_md op_desc MklQuery.query_workspace_pd
    let output1 : Tensor := create_mkldnn_tensor_from_md dst_dims dst_sizes md
    match mkldnn_primitive_create engine op_desc [input0] [output0, output1] with
    | Except.error e => Except.error e
    | Except.ok op_prim =>
      Except.ok { op_desc := op_desc, op_prim := op_prim,
                  inputs := [input0], outputs := [output0, output1],
                  num_inputs := 1, num_outputs := 2,
                  reorder_i := [none], reorder_o := [none, none],
                  net := opkernel.net ++ [op_prim] }
  else
    match mkldnn_primitive_create engine op_desc [input0] [output0] with
    | Except.error e => Except.error e
    | Except.ok op_prim =>
      Except.ok { op_desc := op_desc, op_prim := op_prim,
                  inputs := [input0], outputs := [output0],
                  num_inputs := 1, num_outputs := 1,
                  reorder_i := [none], reorder_o := [none],
                  net := opkernel.net ++ [op_prim] }

/-- Translation of `create_mkldnn_pool_bprop_kernel`
(src/ngraph/transformers/cpu/pooling.c, lines 104-189).  The backward
descriptor receives the destination ("any"-layout) descriptor as diff-source
and the source descriptor as diff-destination, exactly as the C call passes
them; the primitive descriptor is created with the forward OpKernel's
primitive descriptor as hint. -/
def create_mkldnn_pool_bprop_kernel (engine : Engine) (src_dims dst_dims : Nat)
    (src_sizes kernel_sizes dst_sizes strides padding : List Int)
    (pool_type : Int) (input_src_md : Option MemDesc) (data_type : Nat)
    (fprop_opkernel : OpKernel) (opkernel : OpKernel) :
    Except MklStep OpKernel :=
  match (match input_src_md with
         | some md => Except.ok md
         | none => mkldnn_memory_desc_init engine src_dims src_sizes data_type
             Fmt.mkldnn_chwn) with
  | Except.error e => Except.error e
  | Except.ok mkldnn_memory_desc_src_md =>
  match mkldnn_memory_desc_init engine dst_dims dst_sizes data_type
      Fmt.mkldnn_any with
  | Except.error e => Except.error e
  | Except.ok mkldnn_memory_desc_dst_md =>
  match (if pool_type = 0 then
           mkldnn_pooling_backward_desc_init engine AlgKind.pooling_max
             mkldnn_memory_desc_dst_md mkldnn_memory_desc_src_md strides
             kernel_sizes padding padding PadKind.padding_zero
         else
           mkldnn_pooling_backward_desc_init engine AlgKind.pooling_avg
             mkldnn_memory_desc_dst_md mkldnn_memory_desc_src_md strides
             kernel_sizes padding padding PadKind.padding_zero) with
  | Except.error e => Except.error e
  | Except.ok pool_any_desc =>
  match mkldnn_primitive_desc_create engine pool_any_desc
      (some fprop_opkernel.op_desc) with
  | Except.error e => Except.error e
  | Except.ok op_desc =>
  let _kernel_src_md := mkldnn_primitive_desc_query_md op_desc
    MklQuery.query_diff_dst_pd
  let input0 : Tensor := match input_src_md with
    | some md => create_mkldnn_tensor_from_md src_dims src_sizes md
    | none => create_mkldnn_tensor src_dims src_sizes data_type Fmt.mkldnn_chwn
  let dst_md := mkldnn_primitive_desc_query_md op_desc MklQuery.query_diff_src_pd
  let output0 : Tensor := create_mkldnn_tensor_from_md dst_dims dst_sizes dst_md
  if pool_type = 0 then
    let md := mkldnn_primitive_desc_query_md op_desc MklQuery.query_workspace_pd
    let input1 : Tensor := create_mkldnn_tensor_from_md src_dims src_sizes md
    match mkldnn_primitive_create engine op_desc [input0, input1] [output0] with
    | Except.error e => Except.error e
    | Except.ok op_prim =>
      Except.ok { op_desc := op_desc, op_prim := op_prim,
                  inputs := [input0, input1], outputs := [output0],
                  num_inputs := 2, num_outputs := 1,
                  reorder_i := [none, none], reorder_o := [none],
                  net := opkernel.net ++ [op_prim] }
  else
    match mkldnn_primitive_create engine op_desc [input0] [output0] with
    | Except.error e => Except.error e
    | Except.ok op_prim =>
      Except.ok { op_desc := op_desc, op_prim := op_prim,
                  inputs := [input0], outputs := [output0],
                  num_inputs := 1, num_outputs := 1,
                  reorder_i := [none], reorder_o := [none],
                  net := opkernel.net ++ [op_prim] }

/-- A permissive engine for concrete runs: every validity oracle accepts. -/
def all_ok_engine : Engine :=
  ⟨fun _ => true, fun _ => true, fun _ => true, fun _ => true,
   Fmt.other 7, 3, Fmt.other 9⟩

/-- An engine whose primitive-creation call always fails. -/
def prim_create_fails_engine : Engine :=
  ⟨fun _ => true, fun _ => true, fun _ => true, fun _ => false,
   Fmt.other 7, 3, Fmt.other 9⟩

/-- An engine whose memory-descriptor initialization always fails. -/
def mem_desc_fails_engine : Engine :=
  ⟨fun _ => false, fun _ => true, fun _ => true, fun _ => true,
   Fmt.other 7, 3, Fmt.other 9⟩

/-- An engine whose pooling-descriptor initialization always fails. -/
def pool_desc_fails_engine : Engine :=
  ⟨fun _ => true, fun _ => false, fun _ => true, fun _ => true,
   Fmt.other 7, 3, Fmt.other 9⟩

/-- An engine whose primitive-descriptor creation always fails. -/
def prim_desc_fails_engine : Engine :=
  ⟨fun _ => true, fun _ => true, fun _ => false, fun _ => true,
   Fmt.other 7, 3, Fmt.other 9⟩

def dummy_md : MemDesc := ⟨0, [], 0, Fmt.mkldnn_chwn⟩

def dummy_pooling_desc : PoolingDesc :=
  ⟨true, none, AlgKind.pooling_max, dummy_md, dummy_md, [], [], [],
   [], PadKind.padding_zero⟩

def dummy_prim_desc : PrimDesc :=
  ⟨⟨dummy_pooling_desc, dummy_md, dummy_md, dummy_md⟩, none⟩

def dummy_prim : MklPrim := ⟨dummy_prim_desc, [], []⟩

def dummy_tensor : Tensor := ⟨0, [], dummy_md⟩

/-- A freshly allocated OpKernel record, before a builder fills it. -/
def empty_opkernel : OpKernel :=
  ⟨dummy_prim_desc, dummy_prim, [], [], 0, 0, [], [], []⟩

/-- Extract the kernel from a successful construction. -/
def getOk (r : Except MklStep OpKernel) : OpKernel :=
  r.toOption.getD empty_opkernel

/-- Concrete forward max-pooling run (the spec §8 example scenario). -/
def sample_fprop_max_r : Except MklStep OpKernel :=
  create_mkldnn_pool_fprop_kernel all_ok_engine 4 4 [8, 16, 32, 32] [2, 2]
    [8, 16, 16, 16] [2, 2] [0, 0] 0 none 1 empty_opkernel

def sample_fk_max : OpKernel := getOk sample_fprop_max_r

/-- Concrete backward max-pooling run against the forward kernel; the
caller passes the incoming-gradient shape as source and the
outgoing-gradient shape as destination. -/
def sample_bprop_max_r : Except MklStep OpKernel :=
  create_mkldnn_pool_bprop_kernel all_ok_engine 4 4 [8, 16, 16, 16] [2, 2]
    [8, 16, 32, 32] [2, 2] [0, 0] 0 none 1 sample_fk_max empty_opkernel

def sample_bk_max : OpKernel := getOk sample_bprop_max_r

/-- Concrete forward average-pooling run. -/
def sample_fprop_avg_r : Except MklStep OpKernel :=
  create_mkldnn_pool_fprop_kernel all_ok_engine 4 4 [8, 16, 32, 32] [2, 2]
    [8, 16, 16, 16] [2, 2] [0, 0] 1 none 1 empty_opkernel

def sample_fk_avg : OpKernel := getOk sample_fprop_avg_r

/-- Concrete backward average-pooling run. -/
def sample_bprop_avg_r : Except MklStep OpKernel :=
  create_mkldnn_pool_bprop_kernel all_ok_engine 4 4 [8, 16, 16, 16] [2, 2]
    [8, 16, 32, 32] [2, 2] [0, 0] 1 none 1 sample_fk_avg empty_opkernel

def sample_bk_avg : OpKernel := getOk sample_bprop_avg_r

/-- Success characterization of `mkldnn_memory_desc_init`. -/
theorem mem_desc_init_ok_iff (e : Engine) (nd : Nat) (sz : List Int)
    (dt : Nat) (f : Fmt) (md : MemDesc) :
    mkldnn_memory_desc_init e nd sz dt f = Except.ok md ↔
    e.mem_desc_ok ⟨nd, sz, dt, f⟩ = true ∧ md = ⟨nd, sz, dt, f⟩ := by
  unfold mkldnn_memory_desc_init
  try simp only []
  split
  all_goals simp_all
  all_goals exact eq_comm

/-- Success characterization of `mkldnn_pooling_forward_desc_init`. -/
theorem fwd_desc_init_ok_iff (e : Engine) (pk : PropKind) (alg : AlgKind)
    (src dst : MemDesc) (strides kernel pl pr : List Int) (pad : PadKind)
    (d : PoolingDesc) :
    mkldnn_pooling_forward_desc_init e pk alg src dst strides kernel pl pr pad
      = Except.ok d ↔
    e.pool_desc_ok ⟨true, some pk, alg, src, dst, strides, kernel, pl, pr, pad⟩
      = true ∧
    d = ⟨true, some pk, alg, src, dst, strides, kernel, pl, pr, pad⟩ := by
  unfold mkldnn_pooling_forward_desc_init
  try simp only []
  split
  all_goals simp_all
  all_goals exact eq_comm

/-- Success characterization of `mkldnn_pooling_backward_desc_init`. -/
theorem bwd_desc_init_ok_iff (e : Engine) (alg : AlgKind)
    (dsrc ddst : MemDesc) (strides kernel pl pr : List Int) (pad : PadKind)
    (d : PoolingDesc) :
    mkldnn_pooling_backward_desc_init e alg dsrc ddst strides kernel pl pr pad
      = Except.ok d ↔
    e.pool_desc_ok ⟨false, none, alg, dsrc, ddst, strides, kernel, pl, pr, pad⟩
      = true ∧
    d = ⟨false, none, alg, dsrc, ddst, strides, kernel, pl, pr, pad⟩ := by
  unfold mkldnn_pooling_backward_desc_init
  try simp only []
  split
  all_goals simp_all
  all_goals exact eq_comm

/-- Success characterization of `mkldnn_primitive_desc_create`. -/
theorem prim_desc_create_ok_iff (e : Engine) (d : PoolingDesc)
    (hint : Option PrimDesc) (pd : PrimDesc) :
    mkldnn_primitive_desc_create e d hint = Except.ok pd ↔
    e.prim_desc_ok d = true ∧
    pd = ⟨⟨d,
           resolve_any (match hint with
             | some h => h.core.resolved_src.fmt
             | none => e.preferred_fmt) d.src_desc,
           resolve_any (match hint with
             | some h => h.core.resolved_dst.fmt
             | none => e.preferred_fmt) d.dst_desc,
           match hint with
             | some h => h.core.ws_md
             | none => ⟨d.dst_desc.ndims, d.dst_desc.dims, e.ws_data_type,
                        e.ws_fmt⟩⟩,
          hint.map PrimDesc.core⟩ := by
  unfold mkldnn_primitive_desc_create
  try simp only []
  split
  all_goals simp_all
  all_goals exact eq_comm

/-- Success characterization of `mkldnn_primitive_create`. -/
theorem prim_create_ok_iff (e : Engine) (pd : PrimDesc)
    (srcs dsts : List Tensor) (p : MklPrim) :
    mkldnn_primitive_create e pd srcs dsts = Except.ok p ↔
    e.prim_create_ok pd.core.desc = true ∧ p = ⟨pd, srcs, dsts⟩ := by
  unfold mkldnn_primitive_create
  try simp only []
  split
  all_goals simp_all
  all_goals exact eq_comm

/-- C1: for a forward pooling kernel construction that succeeds, max pooling
(pool_type = 0) yields exactly 2 outputs and 1 input, and average pooling
(any other pool_type) yields exactly 1 output and 1 input. -/
theorem fprop_io_counts (engine : Engine) (src_dims dst_dims : Nat)
    (src_sizes kernel_sizes dst_sizes strides padding : List Int)
    (pool_type : Int) (input_src_md : Option MemDesc) (data_type : Nat)
    (k0 k : OpKernel)
    (h : create_mkldnn_pool_fprop_kernel engine src_dims dst_dims src_sizes
      kernel_sizes dst_sizes strides padding pool_type input_src_md data_type
      k0 = Except.ok k) :
    (pool_type = 0 → k.num_outputs = 2 ∧ k.outputs.length = 2 ∧
      k.num_inputs = 1 ∧ k.inputs.length = 1) ∧
    (pool_type ≠ 0 → k.num_outputs = 1 ∧ k.outputs.length = 1 ∧
      k.num_inputs = 1 ∧ k.inputs.length = 1) := by
  unfold create_mkldnn_pool_fprop_kernel at h
  repeat' split at h
  all_goals try simp only [] at h
  all_goals repeat' split at h
  all_goals first
    | exact Except.noConfusion h
    | (injection h with h; subst h; constructor <;> intro hpt <;> simp_all)

/-- C1 witness: the concrete max run has 2 outputs and 1 input. -/
theorem fprop_io_counts_witness :
    sample_fk_max.num_outputs = 2 ∧ sample_fk_max.outputs.length = 2 ∧
    sample_fk_max.num_inputs = 1 ∧ sample_fk_max.inputs.length = 1 :=
  (fprop_io_counts all_ok_engine 4 4 [8, 16, 32, 32] [2, 2] [8, 16, 16, 16]
    [2, 2] [0, 0] 0 none 1 empty_opkernel sample_fk_max (by rfl)).1 (by decide)

/-- C2: for a backward pooling kernel construction that succeeds, max pooling
(pool_type = 0) yields exactly 2 inputs and 1 output, and average pooling
(any other pool_type) yields exactly 1 input and 1 output. -/
theorem bprop_io_counts (engine : Engine) (src_dims dst_dims : Nat)
    (src_sizes kernel_sizes dst_sizes strides padding : List Int)
    (pool_type : Int) (input_src_md : Option MemDesc) (data_type : Nat)
    (fk k0 k : OpKernel)
    (h : create_mkldnn_pool_bprop_kernel engine src_dims dst_dims src_sizes
      kernel_sizes dst_sizes strides padding pool_type input_src_md data_type
      fk k0 = Except.ok k) :
    (pool_type = 0 → k.num_inputs = 2 ∧ k.inputs.length = 2 ∧
      k.num_outputs = 1 ∧ k.outputs.length = 1) ∧
    (pool_type ≠ 0 → k.num_inputs = 1 ∧ k.inputs.length = 1 ∧
      k.num_outputs = 1 ∧ k.outputs.length = 1) := by
  unfold create_mkldnn_pool_bprop_kernel at h
  repeat' split at h
  all_goals try simp only [] at h
  all_goals repeat' split at h
  all_goals first
    | exact Except.noConfusion h
    | (injection h with h; subst h; constructor <;> intro hpt <;> simp_all)

/-- C2 witness: the concrete backward max run has 2 inputs and 1 output. -/
theorem bprop_io_counts_witness :
    sample_bk_max.num_inputs = 2 ∧ sample_bk_max.inputs.length = 2 ∧
    sample_bk_max.num_outputs = 1 ∧ sample_bk_max.outputs.length = 1 :=
  (bprop_io_counts all_ok_engine 4 4 [8, 16, 16, 16] [2, 2] [8, 16, 32, 32]
    [2, 2] [0, 0] 0 none 1 sample_fk_max empty_opkernel sample_bk_max
    (by rfl)).1 (by decide)

/-- C4: the forward builder creates its primitive descriptor with no hint,
while the backward builder creates its primitive descriptor with the forward
OpKernel's primitive descriptor passed as the hint. -/
theorem prim_desc_hint_usage (engine : Engine) (src_dims dst_dims : Nat)
    (src_sizes kernel_sizes dst_sizes strides padding : List Int)
    (pool_type : Int) (input_src_md : Option MemDesc) (data_type : Nat)
    (engine' : Engine) (src_dims' dst_dims' : Nat)
    (src_sizes' kernel_sizes' dst_sizes' strides' padding' : List Int)
    (pool_type' : Int) (input_src_md' : Option MemDesc) (data_type' : Nat)
    (k0 k fk b0 bk : OpKernel)
    (hf : create_mkldnn_pool_fprop_kernel engine src_dims dst_dims src_sizes
      kernel_sizes dst_sizes strides padding pool_type input_src_md data_type
      k0 = Except.ok k)
    (hb : create_mkldnn_pool_bprop_kernel engine' src_dims' dst_dims'
      src_sizes' kernel_sizes' dst_sizes' strides' padding' pool_type'
      input_src_md' data_type' fk b0 = Except.ok bk) :
    k.op_desc.hint = none ∧ bk.op_desc.hint = some fk.op_desc.core := by
  constructor
  · unfold create_mkldnn_pool_fprop_kernel at hf
    repeat' split at hf
    all_goals try simp only [] at hf
    all_goals repeat' split at hf
    all_goals first
      | exact Except.noConfusion hf
      | (injection hf with hf; subst hf; simp_all [prim_desc_create_ok_iff])
  · unfold create_mkldnn_pool_bprop_kernel at hb
    repeat' split at hb
    all_goals try simp only [] at hb
    all_goals repeat' split at hb
    all_goals first
      | exact Except.noConfusion hb
      | (injection hb with hb; subst hb; simp_all [prim_desc_create_ok_iff])

/-- C4 witness: on the concrete max runs, the forward primitive descriptor
has no hint and the backward one's hint is the forward primitive
descriptor. -/
theorem prim_desc_hint_usage_witness :
    sample_fk_max.op_desc.hint = none ∧
    sample_bk_max.op_desc.hint = some sample_fk_max.op_desc.core :=
  prim_desc_hint_usage all_ok_engine 4 4 [8, 16, 32, 32] [2, 2]
    [8, 16, 16, 16] [2, 2] [0, 0] 0 none 1 all_ok_engine 4 4 [8, 16, 16, 16]
    [2, 2] [8, 16, 32, 32] [2, 2] [0, 0] 0 none 1 empty_opkernel sample_fk_max
    sample_fk_max empty_opkernel sample_bk_max (by rfl) (by rfl)

/-- C6: in both builders the source-side Memory Descriptor equals the
caller-supplied explicit layout descriptor when one is supplied and is
otherwise built from the declared source rank, extents and data type with
the default `mkldnn_chwn` layout, while the destination-side Memory
Descriptor is always built with the automatic `mkldnn_any` placeholder; in
the backward logical descriptor these occupy the diff-destination and
diff-source slots respectively, in the order the C call passes them. -/
theorem builders_memory_descriptors (engine : Engine) (src_dims dst_dims : Nat)
    (src_sizes kernel_sizes dst_sizes strides padding : List Int)
    (pool_type : Int) (input_src_md : Option MemDesc) (data_type : Nat)
    (engine' : Engine) (src_dims' dst_dims' : Nat)
    (src_sizes' kernel_sizes' dst_sizes' strides' padding' : List Int)
    (pool_type' : Int) (input_src_md' : Option MemDesc) (data_type' : Nat)
    (k0 k fk b0 bk : OpKernel)
    (hf : create_mkldnn_pool_fprop_kernel engine src_dims dst_dims src_sizes
      kernel_sizes dst_sizes strides padding pool_type input_src_md data_type
      k0 = Except.ok k)
    (hb : create_mkldnn_pool_bprop_kernel engine' src_dims' dst_dims'
      src_sizes' kernel_sizes' dst_sizes' strides' padding' pool_type'
      input_src_md' data_type' fk b0 = Except.ok bk) :
    (k.op_desc.core.desc.src_desc =
        input_src_md.getD ⟨src_dims, src_sizes, data_type, Fmt.mkldnn_chwn⟩ ∧
      k.op_desc.core.desc.dst_desc =
        ⟨dst_dims, dst_sizes, data_type, Fmt.mkldnn_any⟩) ∧
    (bk.op_desc.core.desc.dst_desc =
        input_src_md'.getD ⟨src_dims', src_sizes', data_type', Fmt.mkldnn_chwn⟩ ∧
      bk.op_desc.core.desc.src_desc =
        ⟨dst_dims', dst_sizes', data_type', Fmt.mkldnn_any⟩) := by
  constructor
  · unfold create_mkldnn_pool_fprop_kernel at hf
    repeat' split at hf
    all_goals try simp only [] at hf
    all_goals repeat' split at hf
    all_goals first
      | exact Except.noConfusion hf
      | (injection hf with hf; subst hf;
         simp_all [mem_desc_init_ok_iff, fwd_desc_init_ok_iff,
                   prim_desc_create_ok_iff])
  · unfold create_mkldnn_pool_bprop_kernel at hb
    repeat' split at hb
    all_goals try simp only [] at hb
    all_goals repeat' split at hb
    all_goals first
      | exact Except.noConfusion hb
      | (injection hb with hb; subst hb;
         simp_all [mem_desc_init_ok_iff, bwd_desc_init_ok_iff,
                   prim_desc_create_ok_iff])

/-- C6 witness: the concrete max runs use the default-layout source
descriptor and the automatic-layout destination descriptor. -/
theorem builders_memory_descriptors_witness :
    (sample_fk_max.op_desc.core.desc.src_desc =
        (none : Option MemDesc).getD ⟨4, [8, 16, 32, 32], 1, Fmt.mkldnn_chwn⟩ ∧
      sample_fk_max.op_desc.core.desc.dst_desc =
        ⟨4, [8, 16, 16, 16], 1, Fmt.mkldnn_any⟩) ∧
    (sample_bk_max.op_desc.core.desc.dst_desc =
        (none : Option MemDesc).getD ⟨4, [8, 16, 16, 16], 1, Fmt.mkldnn_chwn⟩ ∧
      sample_bk_max.op_desc.core.desc.src_desc =
        ⟨4, [8, 16, 32, 32], 1, Fmt.mkldnn_any⟩) :=
  builders_memory_descriptors all_ok_engine 4 4 [8, 16, 32, 32] [2, 2]
    [8, 16, 16, 16] [2, 2] [0, 0] 0 none 1 all_ok_engine 4 4 [8, 16, 16, 16]
    [2, 2] [8, 16, 32, 32] [2, 2] [0, 0] 0 none 1 empty_opkernel sample_fk_max
    sample_fk_max empty_opkernel sample_bk_max (by rfl) (by rfl)

/-- C7: for every pooling type, the forward logical pooling descriptor is
registered for the training-mode forward pass and uses the zero-padding
policy. -/
theorem fprop_training_zero_padding (engine : Engine) (src_dims dst_dims : Nat)
    (src_sizes kernel_sizes dst_sizes strides padding : List Int)
    (pool_type : Int) (input_src_md : Option MemDesc) (data_type : Nat)
    (k0 k : OpKernel)
    (h : create_mkldnn_pool_fprop_kernel engine src_dims dst_dims src_sizes
      kernel_sizes dst_sizes strides padding pool_type input_src_md data_type
      k0 = Except.ok k) :
    k.op_desc.core.desc.prop_kind = some PropKind.forward_training ∧
    k.op_desc.core.desc.pad_kind = PadKind.padding_zero := by
  unfold create_mkldnn_pool_fprop_kernel at h
  repeat' split at h
  all_goals try simp only [] at h
  all_goals repeat' split at h
  all_goals first
    | exact Except.noConfusion h
    | (injection h with h; subst h;
       simp_all [fwd_desc_init_ok_iff, prim_desc_create_ok_iff])

/-- C7 witness: the concrete average-pooling forward run is registered for
training with zero padding. -/
theorem fprop_training_zero_padding_witness :
    sample_fk_avg.op_desc.core.desc.prop_kind =
      some PropKind.forward_training ∧
    sample_fk_avg.op_desc.core.desc.pad_kind = PadKind.padding_zero :=
  fprop_training_zero_padding all_ok_engine 4 4 [8, 16, 32, 32] [2, 2]
    [8, 16, 16, 16] [2, 2] [0, 0] 1 none 1 empty_opkernel sample_fk_avg
    (by rfl)

/-- C10: in both builders the caller-supplied padding array is passed as
both the leading and the trailing padding of the pooling descriptor, so the
left and right padding amounts always coincide. -/
theorem builders_symmetric_padding (engine : Engine) (src_dims dst_dims : Nat)
    (src_sizes kernel_sizes dst_sizes strides padding : List Int)
    (pool_type : Int) (input_src_md : Option MemDesc) (data_type : Nat)
    (engine' : Engine) (src_dims' dst_dims' : Nat)
    (src_sizes' kernel_sizes' dst_sizes' strides' padding' : List Int)
    (pool_type' : Int) (input_src_md' : Option MemDesc) (data_type' : Nat)
    (k0 k fk b0 bk : OpKernel)
    (hf : create_mkldnn_pool_fprop_kernel engine src_dims dst_dims src_sizes
      kernel_sizes dst_sizes strides padding pool_type input_src_md data_type
      k0 = Except.ok k)
    (hb : create_mkldnn_pool_bprop_kernel engine' src_dims' dst_dims'
      src_sizes' kernel_sizes' dst_sizes' strides' padding' pool_type'
      input_src_md' data_type' fk b0 = Except.ok bk) :
    (k.op_desc.core.desc.padding_l = padding ∧
      k.op_desc.core.desc.padding_r = padding) ∧
    (bk.op_desc.core.desc.padding_l = padding' ∧
      bk.op_desc.core.desc.padding_r = padding') := by
  constructor
  · unfold create_mkldnn_pool_fprop_kernel at hf
    repeat' split at hf
    all_goals try simp only [] at hf
    all_goals repeat' split at hf
    all_goals first
      | exact Except.noConfusion hf
      | (injection hf with hf; subst hf;
         simp_all [fwd_desc_init_ok_iff, prim_desc_create_ok_iff])
  · unfold create_mkldnn_pool_bprop_kernel at hb
    repeat' split at hb
    all_goals try simp only [] at hb
    all_goals repeat' split at hb
    all_goals first
      | exact Except.noConfusion hb
      | (injection hb with hb; subst hb;
         simp_all [bwd_desc_init_ok_iff, prim_desc_create_ok_iff])

/-- C10 witness: the concrete max runs pass `[0, 0]` as both leading and
trailing padding. -/
theorem builders_symmetric_padding_witness :
    (sample_fk_max.op_desc.core.desc.padding_l = [0, 0] ∧
      sample_fk_max.op_desc.core.desc.padding_r = [0, 0]) ∧
    (sample_bk_max.op_desc.core.desc.padding_l = [0, 0] ∧
      sample_bk_max.op_desc.core.desc.padding_r = [0, 0]) :=
  builders_symmetric_padding all_ok_engine 4 4 [8, 16, 32, 32] [2, 2]
    [8, 16, 16, 16] [2, 2] [0, 0] 0 none 1 all_ok_engine 4 4 [8, 16, 16, 16]
    [2, 2] [8, 16, 32, 32] [2, 2] [0, 0] 0 none 1 empty_opkernel sample_fk_max
    sample_fk_max empty_opkernel sample_bk_max (by rfl) (by rfl)

/-- C3: when no explicit source layout is supplied to either builder, the
backward kernel's resolved outgoing-gradient (diff-source) layout equals the
forward kernel's resolved source layout, both at the level of the resolved
primitive-descriptor role and of the materialized tensors (the backward
outgoing-gradient tensor's layout equals the forward source tensor's
layout). -/
theorem bprop_diff_src_layout_matches_fprop_src (engine : Engine)
    (src_dims dst_dims : Nat)
    (src_sizes kernel_sizes dst_sizes strides padding : List Int)
    (pool_type : Int) (data_type : Nat)
    (engine' : Engine) (src_dims' dst_dims' : Nat)
    (src_sizes' kernel_sizes' dst_sizes' strides' padding' : List Int)
    (pool_type' : Int) (data_type' : Nat) (k0 fk b0 bk : OpKernel)
    (hf : create_mkldnn_pool_fprop_kernel engine src_dims dst_dims src_sizes
      kernel_sizes dst_sizes strides padding pool_type none data_type
      k0 = Except.ok fk)
    (hb : create_mkldnn_pool_bprop_kernel engine' src_dims' dst_dims'
      src_sizes' kernel_sizes' dst_sizes' strides' padding' pool_type'
      none data_type' fk b0 = Except.ok bk) :
    bk.op_desc.core.resolved_src.fmt = fk.op_desc.core.resolved_src.fmt ∧
    (bk.outputs.getD 0 dummy_tensor).md.fmt =
      (fk.inputs.getD 0 dummy_tensor).md.fmt := by
  unfold create_mkldnn_pool_fprop_kernel at hf
  repeat' split at hf
  all_goals try simp only [] at hf
  all_goals repeat' split at hf
  all_goals try exact Except.noConfusion hf
  all_goals (injection hf with hf; subst hf)
  all_goals unfold create_mkldnn_pool_bprop_kernel at hb
  all_goals repeat' split at hb
  all_goals try simp only [] at hb
  all_goals repeat' split at hb
  all_goals try exact Except.noConfusion hb
  all_goals (injection hb with hb; subst hb)
  all_goals
    simp_all [mem_desc_init_ok_iff, fwd_desc_init_ok_iff, bwd_desc_init_ok_iff,
      prim_desc_create_ok_iff, mkldnn_primitive_desc_query_md,
      create_mkldnn_tensor, create_mkldnn_tensor_from_md, resolve_any]

/-- C3 witness: in the concrete max runs with no explicit layouts, the
backward outgoing-gradient layout and the forward source layout are both
the default layout. -/
theorem bprop_diff_src_layout_matches_fprop_src_witness :
    sample_bk_max.op_desc.core.resolved_src.fmt =
      sample_fk_max.op_desc.core.resolved_src.fmt ∧
    (sample_bk_max.outputs.getD 0 dummy_tensor).md.fmt =
      (sample_fk_max.inputs.getD 0 dummy_tensor).md.fmt :=
  bprop_diff_src_layout_matches_fprop_src all_ok_engine 4 4 [8, 16, 32, 32]
    [2, 2] [8, 16, 16, 16] [2, 2] [0, 0] 0 1 all_ok_engine 4 4
    [8, 16, 16, 16] [2, 2] [8, 16, 32, 32] [2, 2] [0, 0] 0 1 empty_opkernel
    sample_fk_max empty_opkernel sample_bk_max (by rfl) (by rfl)

/-- C5 (amended): each successful builder invocation appends exactly one
executable primitive to its own OpKernel's net, leaving the rest of that net
unchanged; the forward entry goes to the forward kernel's net and the
backward entry to the backward kernel's own net, which are separate
per-kernel sequences rather than one shared Execution Net. -/
theorem builders_append_one_to_own_net (engine : Engine)
    (src_dims dst_dims : Nat)
    (src_sizes kernel_sizes dst_sizes strides padding : List Int)
    (pool_type : Int) (input_src_md : Option MemDesc) (data_type : Nat)
    (engine' : Engine) (src_dims' dst_dims' : Nat)
    (src_sizes' kernel_sizes' dst_sizes' strides' padding' : List Int)
    (pool_type' : Int) (input_src_md' : Option MemDesc) (data_type' : Nat)
    (k0 k fk b0 bk : OpKernel)
    (hf : create_mkldnn_pool_fprop_kernel engine src_dims dst_dims src_sizes
      kernel_sizes dst_sizes strides padding pool_type input_src_md data_type
      k0 = Except.ok k)
    (hb : create_mkldnn_pool_bprop_kernel engine' src_dims' dst_dims'
      src_sizes' kernel_sizes' dst_sizes' strides' padding' pool_type'
      input_src_md' data_type' fk b0 = Except.ok bk) :
    k.net = k0.net ++ [k.op_prim] ∧ bk.net = b0.net ++ [bk.op_prim] := by
  constructor
  · unfold create_mkldnn_pool_fprop_kernel at hf
    repeat' split at hf
    all_goals try simp only [] at hf
    all_goals repeat' split at hf
    all_goals first
      | exact Except.noConfusion hf
      | (injection hf with hf; subst hf; simp)
  · unfold create_mkldnn_pool_bprop_kernel at hb
    repeat' split at hb
    all_goals try simp only [] at hb
    all_goals repeat' split at hb
    all_goals first
      | exact Except.noConfusion hb
      | (injection hb with hb; subst hb; simp)

/-- C5 amended-theorem witness: on the concrete max runs (both starting from
a freshly allocated kernel with an empty net), each builder's kernel ends
with exactly its own primitive appended. -/
theorem builders_append_one_to_own_net_witness :
    sample_fk_max.net = empty_opkernel.net ++ [sample_fk_max.op_prim] ∧
    sample_bk_max.net = empty_opkernel.net ++ [sample_bk_max.op_prim] :=
  builders_append_one_to_own_net all_ok_engine 4 4 [8, 16, 32, 32] [2, 2]
    [8, 16, 16, 16] [2, 2] [0, 0] 0 none 1 all_ok_engine 4 4 [8, 16, 16, 16]
    [2, 2] [8, 16, 32, 32] [2, 2] [0, 0] 0 none 1 empty_opkernel sample_fk_max
    sample_fk_max empty_opkernel sample_bk_max (by rfl) (by rfl)

/-- C5 counterexample: in the concrete forward-then-backward max runs both
builds succeed, yet no single net receives the two entries: each kernel's
net holds exactly one entry and neither net contains the other kernel's
primitive, so there is no Execution Net with two new entries where the
forward entry precedes the backward entry. -/
theorem single_shared_net_counterexample :
    sample_fprop_max_r = Except.ok sample_fk_max ∧
    sample_bprop_max_r = Except.ok sample_bk_max ∧
    sample_fk_max.net.length = 1 ∧ sample_bk_max.net.length = 1 ∧
    sample_fk_max.op_prim ∉ sample_bk_max.net ∧
    sample_bk_max.op_prim ∉ sample_fk_max.net := by
  refine ⟨by rfl, by rfl, by rfl, by rfl, by decide, by decide⟩

/-- C9: only pool_type = 0 selects max pooling; every nonzero pool_type is
treated identically to average pooling in both builders — the whole
construction equals the construction with pool_type = 1, and any kernel it
yields carries the average-pooling algorithm in its descriptor. -/
theorem nonzero_pool_type_is_avg (engine : Engine) (src_dims dst_dims : Nat)
    (src_sizes kernel_sizes dst_sizes strides padding : List Int)
    (pool_type : Int) (input_src_md : Option MemDesc) (data_type : Nat)
    (fk k0 b0 : OpKernel) (hpt : pool_type ≠ 0) :
    create_mkldnn_pool_fprop_kernel engine src_dims dst_dims src_sizes
        kernel_sizes dst_sizes strides padding pool_type input_src_md
        data_type k0 =
      create_mkldnn_pool_fprop_kernel engine src_dims dst_dims src_sizes
        kernel_sizes dst_sizes strides padding 1 input_src_md data_type k0 ∧
    create_mkldnn_pool_bprop_kernel engine src_dims dst_dims src_sizes
        kernel_sizes dst_sizes strides padding pool_type input_src_md
        data_type fk b0 =
      create_mkldnn_pool_bprop_kernel engine src_dims dst_dims src_sizes
        kernel_sizes dst_sizes strides padding 1 input_src_md data_type fk
        b0 ∧
    (∀ k, create_mkldnn_pool_fprop_kernel engine src_dims dst_dims src_sizes
        kernel_sizes dst_sizes strides padding pool_type input_src_md
        data_type k0 = Except.ok k →
      k.op_desc.core.desc.alg = AlgKind.pooling_avg) ∧
    (∀ k, create_mkldnn_pool_bprop_kernel engine src_dims dst_dims src_sizes
        kernel_sizes dst_sizes strides padding pool_type input_src_md
        data_type fk b0 = Except.ok k →
      k.op_desc.core.desc.alg = AlgKind.pooling_avg) := by
  refine ⟨?_, ?_, ?_, ?_⟩
  · unfold create_mkldnn_pool_fprop_kernel
    simp [hpt]
  · unfold create_mkldnn_pool_bprop_kernel
    simp [hpt]
  · intro k h
    unfold create_mkldnn_pool_fprop_kernel at h
    simp only [if_neg hpt] at h
    repeat' split at h
    all_goals first
      | exact Except.noConfusion h
      | (injection h with h; subst h;
         simp_all [fwd_desc_init_ok_iff, prim_desc_create_ok_iff])
  · intro k h
    unfold create_mkldnn_pool_bprop_kernel at h
    simp only [if_neg hpt] at h
    repeat' split at h
    all_goals first
      | exact Except.noConfusion h
      | (injection h with h; subst h;
         simp_all [bwd_desc_init_ok_iff, prim_desc_create_ok_iff])

/-- C9 witness: pool_type = 5 constructs exactly what pool_type = 1 does,
for both builders. -/
theorem nonzero_pool_type_is_avg_witness :
    create_mkldnn_pool_fprop_kernel all_ok_engine 4 4 [8, 16, 32, 32] [2, 2]
        [8, 16, 16, 16] [2, 2] [0, 0] 5 none 1 empty_opkernel =
      create_mkldnn_pool_fprop_kernel all_ok_engine 4 4 [8, 16, 32, 32]
        [2, 2] [8, 16, 16, 16] [2, 2] [0, 0] 1 none 1 empty_opkernel ∧
    create_mkldnn_pool_bprop_kernel all_ok_engine 4 4 [8, 16, 32, 32] [2, 2]
        [8, 16, 16, 16] [2, 2] [0, 0] 5 none 1 sample_fk_avg empty_opkernel =
      create_mkldnn_pool_bprop_kernel all_ok_engine 4 4 [8, 16, 32, 32]
        [2, 2] [8, 16, 16, 16] [2, 2] [0, 0] 1 none 1 sample_fk_avg
        empty_opkernel :=
  ⟨(nonzero_pool_type_is_avg all_ok_engine 4 4 [8, 16, 32, 32] [2, 2]
      [8, 16, 16, 16] [2, 2] [0, 0] 5 none 1 sample_fk_avg empty_opkernel
      empty_opkernel (by decide)).1,
   (nonzero_pool_type_is_avg all_ok_engine 4 4 [8, 16, 32, 32] [2, 2]
      [8, 16, 16, 16] [2, 2] [0, 0] 5 none 1 sample_fk_avg empty_opkernel
      empty_opkernel (by decide)).2.1⟩

/-- C8: a failing engine call aborts construction at that step and no
OpKernel results (so nothing is appended to any net), for every one of the
four fallible steps.  With an engine whose memory-descriptor calls fail,
both builders abort at the first descriptor construction; with one failing
only at pooling-descriptor initialization, both abort there; with one
failing only at primitive-descriptor creation, both abort there; with one
failing only at primitive creation — the last fallible step — both builders
run every earlier step and still abort there, and in particular can never
return a constructed kernel. -/
theorem builders_abort_on_failure (e1 e2 e3 e4 : Engine)
    (src_dims dst_dims : Nat)
    (src_sizes kernel_sizes dst_sizes strides padding : List Int)
    (pool_type : Int) (input_src_md : Option MemDesc) (data_type : Nat)
    (fk k0 b0 : OpKernel)
    (h1 : ∀ md, e1.mem_desc_ok md = false)
    (h2m : ∀ md, e2.mem_desc_ok md = true)
    (h2p : ∀ d, e2.pool_desc_ok d = true)
    (h2d : ∀ d, e2.prim_desc_ok d = true)
    (h2c : ∀ d, e2.prim_create_ok d = false)
    (h3m : ∀ md, e3.mem_desc_ok md = true)
    (h3p : ∀ d, e3.pool_desc_ok d = false)
    (h4m : ∀ md, e4.mem_desc_ok md = true)
    (h4p : ∀ d, e4.pool_desc_ok d = true)
    (h4d : ∀ d, e4.prim_desc_ok d = false) :
    create_mkldnn_pool_fprop_kernel e1 src_dims dst_dims src_sizes
        kernel_sizes dst_sizes strides padding pool_type input_src_md
        data_type k0 = Except.error MklStep.mem_desc_init ∧
    create_mkldnn_pool_bprop_kernel e1 src_dims dst_dims src_sizes
        kernel_sizes dst_sizes strides padding pool_type input_src_md
        data_type fk b0 = Except.error MklStep.mem_desc_init ∧
    create_mkldnn_pool_fprop_kernel e3 src_dims dst_dims src_sizes
        kernel_sizes dst_sizes strides padding pool_type input_src_md
        data_type k0 = Except.error MklStep.pool_desc_init ∧
    create_mkldnn_pool_bprop_kernel e3 src_dims dst_dims src_sizes
        kernel_sizes dst_sizes strides padding pool_type input_src_md
        data_type fk b0 = Except.error MklStep.pool_desc_init ∧
    create_mkldnn_pool_fprop_kernel e4 src_dims dst_dims src_sizes
        kernel_sizes dst_sizes strides padding pool_type input_src_md
        data_type k0 = Except.error MklStep.prim_desc_create ∧
    create_mkldnn_pool_bprop_kernel e4 src_dims dst_dims src_sizes
        kernel_sizes dst_sizes strides padding pool_type input_src_md
        data_type fk b0 = Except.error MklStep.prim_desc_create ∧
    create_mkldnn_pool_fprop_kernel e2 src_dims dst_dims src_sizes
        kernel_sizes dst_sizes strides padding pool_type input_src_md
        data_type k0 = Except.error MklStep.prim_create ∧
    create_mkldnn_pool_bprop_kernel e2 src_dims dst_dims src_sizes
        kernel_sizes dst_sizes strides padding pool_type input_src_md
        data_type fk b0 = Except.error MklStep.prim_create ∧
    (∀ k, create_mkldnn_pool_fprop_kernel e2 src_dims dst_dims src_sizes
        kernel_sizes dst_sizes strides padding pool_type input_src_md
        data_type k0 ≠ Except.ok k) ∧
    (∀ k, create_mkldnn_pool_bprop_kernel e2 src_dims dst_dims src_sizes
        kernel_sizes dst_sizes strides padding pool_type input_src_md
        data_type fk b0 ≠ Except.ok k) := by
  have hfe2 : create_mkldnn_pool_fprop_kernel e2 src_dims dst_dims src_sizes
      kernel_sizes dst_sizes strides padding pool_type input_src_md
      data_type k0 = Except.error MklStep.prim_create := by
    unfold create_mkldnn_pool_fprop_kernel
    cases input_src_md <;> by_cases hpt : pool_type = 0 <;>
      simp [hpt, mkldnn_memory_desc_init, mkldnn_pooling_forward_desc_init,
        mkldnn_primitive_desc_create, mkldnn_primitive_create, h2m, h2p, h2d,
        h2c]
  have hbe2 : create_mkldnn_pool_bprop_kernel e2 src_dims dst_dims src_sizes
      kernel_sizes dst_sizes strides padding pool_type input_src_md
      data_type fk b0 = Except.error MklStep.prim_create := by
    unfold create_mkldnn_pool_bprop_kernel
    cases input_src_md <;> by_cases hpt : pool_type = 0 <;>
      simp [hpt, mkldnn_memory_desc_init, mkldnn_pooling_backward_desc_init,
        mkldnn_primitive_desc_create, mkldnn_primitive_create, h2m, h2p, h2d,
        h2c]
  refine ⟨?_, ?_, ?_, ?_, ?_, ?_, hfe2, hbe2, ?_, ?_⟩
  · unfold create_mkldnn_pool_fprop_kernel
    cases input_src_md <;>
      simp [mkldnn_memory_desc_init, h1]
  · unfold create_mkldnn_pool_bprop_kernel
    cases input_src_md <;>
      simp [mkldnn_memory_desc_init, h1]
  · unfold create_mkldnn_pool_fprop_kernel
    cases input_src_md <;> by_cases hpt : pool_type = 0 <;>
      simp [hpt, mkldnn_memory_desc_init, mkldnn_pooling_forward_desc_init,
        h3m, h3p]
  · unfold create_mkldnn_pool_bprop_kernel
    cases input_src_md <;> by_cases hpt : pool_type = 0 <;>
      simp [hpt, mkldnn_memory_desc_init, mkldnn_pooling_backward_desc_init,
        h3m, h3p]
  · unfold create_mkldnn_pool_fprop_kernel
    cases input_src_md <;> by_cases hpt : pool_type = 0 <;>
      simp [hpt, mkldnn_memory_desc_init, mkldnn_pooling_forward_desc_init,
        mkldnn_primitive_desc_create, h4m, h4p, h4d]
  · unfold create_mkldnn_pool_bprop_kernel
    cases input_src_md <;> by_cases hpt : pool_type = 0 <;>
      simp [hpt, mkldnn_memory_desc_init, mkldnn_pooling_backward_desc_init,
        mkldnn_primitive_desc_create, h4m, h4p, h4d]
  · intro k hk
    rw [hfe2] at hk
    exact Except.noConfusion hk
  · intro k hk
    rw [hbe2] at hk
    exact Except.noConfusion hk

/-- C8 witness: with concrete engines failing at each of the four fallible
steps, both builders abort with exactly that step and produce no kernel. -/
theorem builders_abort_on_failure_witness :
    create_mkldnn_pool_fprop_kernel mem_desc_fails_engine 4 4 [8, 16, 32, 32]
        [2, 2] [8, 16, 16, 16] [2, 2] [0, 0] 0 none 1 empty_opkernel =
      Except.error MklStep.mem_desc_init ∧
    create_mkldnn_pool_bprop_kernel mem_desc_fails_engine 4 4 [8, 16, 32, 32]
        [2, 2] [8, 16, 16, 16] [2, 2] [0, 0] 0 none 1 empty_opkernel
        empty_opkernel = Except.error MklStep.mem_desc_init ∧
    create_mkldnn_pool_fprop_kernel pool_desc_fails_engine 4 4
        [8, 16, 32, 32] [2, 2] [8, 16, 16, 16] [2, 2] [0, 0] 0 none 1
        empty_opkernel = Except.error MklStep.pool_desc_init ∧
    create_mkldnn_pool_bprop_kernel pool_desc_fails_engine 4 4
        [8, 16, 32, 32] [2, 2] [8, 16, 16, 16] [2, 2] [0, 0] 0 none 1
        empty_opkernel empty_opkernel = Except.error MklStep.pool_desc_init ∧
    create_mkldnn_pool_fprop_kernel prim_desc_fails_engine 4 4
        [8, 16, 32, 32] [2, 2] [8, 16, 16, 16] [2, 2] [0, 0] 0 none 1
        empty_opkernel = Except.error MklStep.prim_desc_create ∧
    create_mkldnn_pool_bprop_kernel prim_desc_fails_engine 4 4
        [8, 16, 32, 32] [2, 2] [8, 16, 16, 16] [2, 2] [0, 0] 0 none 1
        empty_opkernel empty_opkernel =
      Except.error MklStep.prim_desc_create ∧
    create_mkldnn_pool_fprop_kernel prim_create_fails_engine 4 4
        [8, 16, 32, 32] [2, 2] [8, 16, 16, 16] [2, 2] [0, 0] 0 none 1
        empty_opkernel = Except.error MklStep.prim_create ∧
    create_mkldnn_pool_bprop_kernel prim_create_fails_engine 4 4
        [8, 16, 32, 32] [2, 2] [8, 16, 16, 16] [2, 2] [0, 0] 0 none 1
        empty_opkernel empty_opkernel = Except.error MklStep.prim_create ∧
    (∀ k, create_mkldnn_pool_fprop_kernel prim_create_fails_engine 4 4
        [8, 16, 32, 32] [2, 2] [8, 16, 16, 16] [2, 2] [0, 0] 0 none 1
        empty_opkernel ≠ Except.ok k) ∧
    (∀ k, create_mkldnn_pool_bprop_kernel prim_create_fails_engine 4 4
        [8, 16, 32, 32] [2, 2] [8, 16, 16, 16] [2, 2] [0, 0] 0 none 1
        empty_opkernel empty_opkernel ≠ Except.ok k) :=
  by
  refine builders_abort_on_failure mem_desc_fails_engine
      prim_create_fails_engine pool_desc_fails_engine prim_desc_fails_engine
      4 4 [8, 16, 32, 32] [2, 2] [8, 16, 16, 16] [2, 2] [0, 0] 0 none 1
      empty_opkernel empty_opkernel empty_opkernel ?_ ?_ ?_ ?_ ?_ ?_ ?_ ?_ ?_
      ?_ <;>
    intro x <;> rfl

end PoolingKernel
